import Mathlib

/-!
Shallow embedding of `src/server.js` (media-uploader-backend): an Express
service with three routes (POST /upload, DELETE /files/:cloudinaryId(*),
GET /files) that delegate to a Remote Media Store (Cloudinary).  The store
is modelled as a record of oracle functions; a handler is a pure function
from the store and the request data to the HTTP response, paired with the
list of store calls it issued, in order.  `Except String` models a promise:
`Except.error msg` is a rejection whose error object has `message = msg`.
-/

namespace MediaUploader

/-- An uploaded file part as multer's memory storage presents it:
`req.file.buffer` (raw bytes) and `req.file.mimetype`. -/
structure ReqFile where
  buffer : List Nat
  mimetype : String
deriving DecidableEq

/-- The options object passed to `cloudinary.uploader.upload` at
src/server.js lines 68-74. -/
structure UploadOptions where
  resource_type : String
  folder : String
  use_filename : Bool
  unique_filename : Bool
  public_id : String
deriving DecidableEq

/-- The fields of the `cloudinary.uploader.upload` result that the handler
reads (src/server.js lines 78-79). -/
structure UploadResult where
  secure_url : String
  public_id : String
deriving DecidableEq

/-- The field of the `cloudinary.api.resource` result that the delete
handler reads (src/server.js line 94). -/
structure ResourceInfo where
  resource_type : String
deriving DecidableEq

/-- The query object passed to `cloudinary.api.resources`
(src/server.js lines 115-120 and 123-128).  `prefixStr` embeds the JS
field `prefix` (a Lean keyword). -/
structure ListQuery where
  type : String
  resource_type : String
  prefixStr : String
  max_results : Nat
deriving DecidableEq

/-- A remote asset descriptor as `cloudinary.api.resources` returns it:
the fields read by the projection at src/server.js lines 132-143. -/
structure StoreFile where
  secure_url : String
  public_id : String
  format : String
  resource_type : String
  bytes : Int
  mimetype : String
  width : Int
  height : Int
  display_name : String
  created_at : String
deriving DecidableEq

/-- The Remote Media Store as the oracles the four SDK entry points used by
src/server.js denote: `uploader.upload`, `api.resource`, `uploader.destroy`
and `api.resources`. -/
structure Store where
  upload : String → UploadOptions → Except String UploadResult
  resource : String → Except String ResourceInfo
  destroy : String → String → Except String Unit
  resources : ListQuery → Except String (List StoreFile)

/-- One call issued to the Remote Media Store, recorded in issue order. -/
inductive StoreCall where
  | upload (dataURI : String) (opts : UploadOptions)
  | resource (id : String)
  | destroy (id : String) (resourceType : String)
  | listResources (q : ListQuery)
deriving DecidableEq

/-- The asset identifier a store call is keyed by, when it has one. -/
def StoreCall.keyOf : StoreCall → Option String
  | StoreCall.resource id => some id
  | StoreCall.destroy id _ => some id
  | _ => none

/-- The base64 alphabet, as `Buffer.toString("base64")` uses it. -/
def base64Char (n : Nat) : Char :=
  "ABCDEFGHIJKLMNOPQRSTUVWXYZabcdefghijklmnopqrstuvwxyz0123456789+/".toList.getD n 'A'

/-- Standard base64 of a byte list, embedding
`Buffer.from(req.file.buffer).toString("base64")` (src/server.js line 65). -/
def base64Encode : List Nat → String
  | b1 :: b2 :: b3 :: rest =>
    String.mk [base64Char (b1 / 4), base64Char (b1 % 4 * 16 + b2 / 16),
      base64Char (b2 % 16 * 4 + b3 / 64), base64Char (b3 % 64)] ++ base64Encode rest
  | [b1, b2] =>
    String.mk [base64Char (b1 / 4), base64Char (b1 % 4 * 16 + b2 / 16),
      base64Char (b2 % 16 * 4), '=']
  | [b1] =>
    String.mk [base64Char (b1 / 4), base64Char (b1 % 4 * 16), '=', '=']
  | [] => ""

/-- The data URI built at src/server.js line 66. -/
def uploadDataURI (file : ReqFile) : String :=
  "data:" ++ file.mimetype ++ ";base64," ++ base64Encode file.buffer

/-- The generated identifier of src/server.js line 73:
a timestamp (`Date.now()`, here the parameter `now`) and a random suffix
(`Math.random().toString(36).substring(2, 8)`, here `randSuffix`). -/
def generatedPublicId (now : Nat) (randSuffix : String) : String :=
  toString now ++ "-" ++ randSuffix

/-- The options object of src/server.js lines 68-74. -/
def uploadOpts (now : Nat) (randSuffix : String) : UploadOptions :=
  { resource_type := "auto"
    folder := "wedding-memories"
    use_filename := true
    unique_filename := false
    public_id := generatedPublicId now randSuffix }

/-- The JSON body POST /upload responds with. -/
inductive UploadBody where
  | ok (message : String) (url : String) (public_id : String)
  | err (error : String)
deriving DecidableEq

/-- The POST /upload handler (src/server.js lines 59-85).  `reqFile` is
`req.file` (`none` when the multipart request has no file part); `now` and
`randSuffix` are the two sources of nondeterminism of line 73.  Returns
((HTTP status, body), store calls in order). -/
def uploadHandler (store : Store) (reqFile : Option ReqFile) (now : Nat)
    (randSuffix : String) : (Nat × UploadBody) × List StoreCall :=
  match reqFile with
  | none => ((400, UploadBody.err "No file uploaded"), [])
  | some file =>
    let dataURI := uploadDataURI file
    let opts := uploadOpts now randSuffix
    match store.upload dataURI opts with
    | Except.ok result =>
      ((200, UploadBody.ok "Upload successful" result.secure_url result.public_id),
        [StoreCall.upload dataURI opts])
    | Except.error msg =>
      ((500, UploadBody.err msg), [StoreCall.upload dataURI opts])

/-- The JSON body DELETE /files/:cloudinaryId(*) responds with. -/
inductive DeleteBody where
  | ok (message : String)
  | err (error : String) (details : String)
deriving DecidableEq

/-- The DELETE /files/:cloudinaryId(*) handler (src/server.js lines 88-107):
looks up the resource to learn its `resource_type`, then destroys the asset
scoped to that type; any rejection lands in the catch block. -/
def deleteHandler (store : Store) (cloudinaryId : String) :
    (Nat × DeleteBody) × List StoreCall :=
  match store.resource cloudinaryId with
  | Except.error msg =>
    ((500, DeleteBody.err "Failed to delete file from Cloudinary" msg),
      [StoreCall.resource cloudinaryId])
  | Except.ok info =>
    match store.destroy cloudinaryId info.resource_type with
    | Except.error msg =>
      ((500, DeleteBody.err "Failed to delete file from Cloudinary" msg),
        [StoreCall.resource cloudinaryId, StoreCall.destroy cloudinaryId info.resource_type])
    | Except.ok _ =>
      ((200, DeleteBody.ok "File deleted successfully from Cloudinary"),
        [StoreCall.resource cloudinaryId, StoreCall.destroy cloudinaryId info.resource_type])

/-- One entry of the `files` array built at src/server.js lines 132-143. -/
structure FileEntry where
  url : String
  public_id : String
  format : String
  resource_type : String
  size : Int
  mimetype : String
  width : Int
  height : Int
  originalName : String
  created_at : String
deriving DecidableEq

/-- The projection of src/server.js lines 132-143. -/
def projectFile (file : StoreFile) : FileEntry :=
  { url := file.secure_url
    public_id := file.public_id
    format := file.format
    resource_type := file.resource_type
    size := file.bytes
    mimetype := file.mimetype
    width := file.width
    height := file.height
    originalName := file.display_name
    created_at := file.created_at }

/-- The image listing query of src/server.js lines 115-120. -/
def imageQuery (maxResults : Nat) : ListQuery :=
  { type := "upload", resource_type := "image",
    prefixStr := "wedding-memories/", max_results := maxResults }

/-- The video listing query of src/server.js lines 123-128. -/
def videoQuery (maxResults : Nat) : ListQuery :=
  { type := "upload", resource_type := "video",
    prefixStr := "wedding-memories/", max_results := maxResults }

/-- The JSON body GET /files responds with. -/
inductive ListBody where
  | ok (files : List FileEntry) (totalFiles : Nat) (totalSize : Int)
  | err (error : String)
deriving DecidableEq

/-- The GET /files handler (src/server.js lines 110-157).  `maxResultsParam`
is the optional `max_results` query parameter; line 112 defaults it to 10.
The two listing queries run in order; a rejection of either lands in the
catch block.  `totalSize` embeds `files.reduce((sum, f) => sum + f.size, 0)`. -/
def listHandler (store : Store) (maxResultsParam : Option Nat) :
    (Nat × ListBody) × List StoreCall :=
  let maxResults := maxResultsParam.getD 10
  match store.resources (imageQuery maxResults) with
  | Except.error msg =>
    ((500, ListBody.err msg), [StoreCall.listResources (imageQuery maxResults)])
  | Except.ok images =>
    match store.resources (videoQuery maxResults) with
    | Except.error msg =>
      ((500, ListBody.err msg),
        [StoreCall.listResources (imageQuery maxResults),
          StoreCall.listResources (videoQuery maxResults)])
    | Except.ok videos =>
      let files := (images ++ videos).map projectFile
      ((200, ListBody.ok files files.length
          (files.foldl (fun sum f => sum + f.size) 0)),
        [StoreCall.listResources (imageQuery maxResults),
          StoreCall.listResources (videoQuery maxResults)])

/-- The CORS allow-list of src/server.js lines 19-24. -/
def allowedOrigins : List String :=
  ["https://jmandmj.vercel.app",
   "https://media-uploader-backend.vercel.app",
   "http://localhost:3001",
   "http://localhost:5173"]

/-- The `origin` callback of src/server.js lines 28-38.  `none` is an absent
Origin header; the JS test `!origin` is also true for the empty string, so
`some ""` passes the first branch too. -/
def corsOrigin : Option String → Except String Bool
  | none => Except.ok true
  | some o =>
    if o = "" then Except.ok true
    else if allowedOrigins.contains o then Except.ok true
    else Except.error ("Not allowed by CORS: " ++ o)

/-- Modelled from the spec: the cors middleware itself is a third-party
library, not part of this repository.  Per the spec (§6), a request whose
origin the callback rejects "is rejected at the network layer before
reaching handlers": the request reaches a route handler exactly when the
origin callback reports success. -/
def reachesHandler (origin : Option String) : Bool :=
  match corsOrigin origin with
  | Except.ok _ => true
  | Except.error _ => false

/-- Split a character list at every dash, keeping empty pieces, like
splitting a string on "-". -/
def splitDash : List Char → List (List Char)
  | [] => [[]]
  | c :: rest =>
    let parts := splitDash rest
    if c == '-' then [] :: parts
    else
      match parts with
      | p :: ps => (c :: p) :: ps
      | [] => [[c]]

/-- Formalises the spec's upload example scenario (§8): whether a string
matches the pattern `<digits>-<6 alphanumeric chars>`. -/
def matchesIdPattern (s : String) : Bool :=
  match splitDash s.toList with
  | [a, b] => !a.isEmpty && a.all Char.isDigit && (b.length == 6) && b.all Char.isAlphanum
  | _ => false

/-! ### Concrete test fixtures, used by witnesses and counterexamples -/

/-- A sample image descriptor under the fixed collection. -/
def sampleImage : StoreFile :=
  { secure_url := "https://res.example/a.jpg"
    public_id := "wedding-memories/1-aaaaaa"
    format := "jpg"
    resource_type := "image"
    bytes := 100
    mimetype := "image/jpeg"
    width := 10
    height := 10
    display_name := "a.jpg"
    created_at := "2024-01-01" }

/-- A sample video descriptor under the fixed collection. -/
def sampleVideo : StoreFile :=
  { secure_url := "https://res.example/b.mp4"
    public_id := "wedding-memories/2-bbbbbb"
    format := "mp4"
    resource_type := "video"
    bytes := 250
    mimetype := "video/mp4"
    width := 20
    height := 20
    display_name := "b.mp4"
    created_at := "2024-01-02" }

/-- A sample request file: a 10-byte JPEG-labelled payload. -/
def sampleFile : ReqFile :=
  { buffer := [1, 2, 3, 4, 5, 6, 7, 8, 9, 10], mimetype := "image/jpeg" }

/-- A store on which every call succeeds: uploads echo the requested
identifier, lookups report an image, listings return one sample each. -/
def okStore : Store :=
  { upload := fun _ opts =>
      Except.ok { secure_url := "https://res.example/u.jpg", public_id := opts.public_id }
    resource := fun _ => Except.ok { resource_type := "image" }
    destroy := fun _ _ => Except.ok ()
    resources := fun q =>
      if q.resource_type = "image" then Except.ok [sampleImage] else Except.ok [sampleVideo] }

/-- A store on which every call fails with message "boom". -/
def failStore : Store :=
  { upload := fun _ _ => Except.error "boom"
    resource := fun _ => Except.error "boom"
    destroy := fun _ _ => Except.error "boom"
    resources := fun _ => Except.error "boom" }

/-- A store whose image listing succeeds and whose video listing fails. -/
def mixedStore : Store :=
  { upload := fun _ _ => Except.error "boom"
    resource := fun _ => Except.error "boom"
    destroy := fun _ _ => Except.error "boom"
    resources := fun q =>
      if q.resource_type = "image" then Except.ok [sampleImage] else Except.error "boom" }

/-- A store that, like Cloudinary when the `folder` option is set, reports
the stored identifier with the folder prepended to the requested one. -/
def prefixingStore : Store :=
  { upload := fun _ opts =>
      Except.ok { secure_url := "https://res.example/wm.jpg",
                  public_id := "wedding-memories/" ++ opts.public_id }
    resource := fun _ => Except.error "not used"
    destroy := fun _ _ => Except.error "not used"
    resources := fun _ => Except.error "not used" }

/-! ### Helper lemmas -/

/-- The fold of src/server.js line 146 is the sum of the sizes. -/
theorem foldl_add_size (l : List FileEntry) (a : Int) :
    l.foldl (fun sum f => sum + f.size) a = a + (l.map FileEntry.size).sum := by
  induction l generalizing a with
  | nil => simp
  | cons x xs ih => simp [List.foldl_cons, ih, add_assoc]

/-- Shape of a fully successful GET /files run. -/
theorem listHandler_ok (store : Store) (mrp : Option Nat)
    (imgs vids : List StoreFile)
    (himg : store.resources (imageQuery (mrp.getD 10)) = Except.ok imgs)
    (hvid : store.resources (videoQuery (mrp.getD 10)) = Except.ok vids) :
    listHandler store mrp =
      ((200, ListBody.ok ((imgs ++ vids).map projectFile)
          (((imgs ++ vids).map projectFile)).length
          ((((imgs ++ vids).map projectFile)).foldl (fun sum f => sum + f.size) 0)),
        [StoreCall.listResources (imageQuery (mrp.getD 10)),
          StoreCall.listResources (videoQuery (mrp.getD 10))]) := by
  simp only [listHandler, himg, hvid]

/-! ### Claims -/

/-- Claim C1: for a delete request with identifier `id`, once the Remote
Media Store lookup reports resource info `info`, the handler's call trace is
exactly the lookup for `id` followed by one destroy call for `id` scoped to
`info.resource_type`: the destroy never precedes the lookup and never uses a
kind other than the one the lookup reported. -/
theorem delete_lookup_then_destroy (store : Store) (id : String)
    (info : ResourceInfo) (h : store.resource id = Except.ok info) :
    (deleteHandler store id).2 =
      [StoreCall.resource id, StoreCall.destroy id info.resource_type] := by
  cases h2 : store.destroy id info.resource_type <;> simp [deleteHandler, h, h2]

theorem delete_lookup_then_destroy_witness :
    (deleteHandler okStore "wedding-memories/1-aaaaaa").2 =
      [StoreCall.resource "wedding-memories/1-aaaaaa",
        StoreCall.destroy "wedding-memories/1-aaaaaa" "image"] :=
  delete_lookup_then_destroy okStore "wedding-memories/1-aaaaaa"
    { resource_type := "image" } rfl

/-- Claim C2, counterexample: a store that (like Cloudinary when the
`folder` upload option is set) reports the stored identifier with the
folder prepended yields a successful 200 response whose `public_id` field
is neither the identifier the service generated nor a match for the
pattern `<digits>-<6 alphanumeric chars>`; the handler returns
`result.public_id` from the store, not its own generated identifier. -/
theorem upload_public_id_counterexample :
    (uploadHandler prefixingStore (some sampleFile) 1700000000000 "abc123").1 =
      (200, UploadBody.ok "Upload successful" "https://res.example/wm.jpg"
        "wedding-memories/1700000000000-abc123") ∧
    ("wedding-memories/1700000000000-abc123" ==
      generatedPublicId 1700000000000 "abc123") = false ∧
    matchesIdPattern "wedding-memories/1700000000000-abc123" = false := by
  decide

/-- Claim C2, amended: on a successful upload the handler responds 200 with
`url` the store-assigned secure URL and `public_id` the store-reported
identifier; the identifier the service generates and requests from the
store has the form `<digits>-<suffix>`, but the response carries whatever
identifier the store reports. -/
theorem upload_success_response (store : Store) (file : ReqFile) (now : Nat)
    (randSuffix : String) (result : UploadResult)
    (h : store.upload (uploadDataURI file) (uploadOpts now randSuffix) =
      Except.ok result) :
    (uploadHandler store (some file) now randSuffix).1 =
      (200, UploadBody.ok "Upload successful" result.secure_url result.public_id) ∧
    (uploadOpts now randSuffix).public_id = toString now ++ "-" ++ randSuffix := by
  exact ⟨by simp [uploadHandler, h], rfl⟩

theorem upload_success_response_witness :
    (uploadHandler okStore (some sampleFile) 1 "abc123").1 =
      (200, UploadBody.ok "Upload successful" "https://res.example/u.jpg" "1-abc123") ∧
    (uploadOpts 1 "abc123").public_id = toString 1 ++ "-" ++ "abc123" :=
  upload_success_response okStore sampleFile 1 "abc123"
    { secure_url := "https://res.example/u.jpg", public_id := "1-abc123" } rfl

/-- Claim C3: in every successful GET /files response, the files array is
the projection of the concatenated image and video query results,
`totalFiles` is its length and `totalSize` is exactly the integer sum of
the `size` field over it. -/
theorem list_totals (store : Store) (mrp : Option Nat)
    (imgs vids : List StoreFile)
    (himg : store.resources (imageQuery (mrp.getD 10)) = Except.ok imgs)
    (hvid : store.resources (videoQuery (mrp.getD 10)) = Except.ok vids) :
    ∀ files tf ts, (listHandler store mrp).1.2 = ListBody.ok files tf ts →
      files = (imgs ++ vids).map projectFile ∧
      tf = files.length ∧ ts = (files.map FileEntry.size).sum := by
  intro files tf ts h
  rw [listHandler_ok store mrp imgs vids himg hvid] at h
  simp only [ListBody.ok.injEq] at h
  obtain ⟨hf, htf, hts⟩ := h
  subst hf
  refine ⟨rfl, htf.symm, ?_⟩
  rw [← hts, foldl_add_size]
  simp

theorem list_totals_witness :
    [projectFile sampleImage, projectFile sampleVideo] =
      ([sampleImage] ++ [sampleVideo]).map projectFile ∧
    2 = [projectFile sampleImage, projectFile sampleVideo].length ∧
    (350 : Int) =
      ([projectFile sampleImage, projectFile sampleVideo].map FileEntry.size).sum :=
  list_totals okStore none [sampleImage] [sampleVideo] rfl rfl
    [projectFile sampleImage, projectFile sampleVideo] 2 350 (by decide)

/-- Claim C4: GET /files with `max_results = N` issues exactly the two
listing queries, one image-scoped and one video-scoped, both under the
fixed collection and both capped at `N`; when the store honours the
cap, the returned files list has length at most `2 * N`; an absent
parameter behaves as `N = 10`. -/
theorem list_max_results (store : Store) (N : Nat) (imgs vids : List StoreFile)
    (himg : store.resources (imageQuery N) = Except.ok imgs)
    (hvid : store.resources (videoQuery N) = Except.ok vids)
    (hlen1 : imgs.length ≤ N) (hlen2 : vids.length ≤ N) :
    (listHandler store (some N)).2 =
      [StoreCall.listResources (imageQuery N),
        StoreCall.listResources (videoQuery N)] ∧
    (∀ files tf ts, (listHandler store (some N)).1.2 = ListBody.ok files tf ts →
      files.length ≤ 2 * N) ∧
    listHandler store none = listHandler store (some 10) := by
  have heq := listHandler_ok store (some N) imgs vids himg hvid
  refine ⟨by rw [heq]; rfl, ?_, rfl⟩
  intro files tf ts h
  rw [heq] at h
  simp only [ListBody.ok.injEq] at h
  obtain ⟨hf, -, -⟩ := h
  subst hf
  simp only [List.length_map, List.length_append]
  omega

theorem list_max_results_witness :
    (listHandler okStore (some 10)).2 =
      [StoreCall.listResources (imageQuery 10),
        StoreCall.listResources (videoQuery 10)] ∧
    (∀ files tf ts, (listHandler okStore (some 10)).1.2 = ListBody.ok files tf ts →
      files.length ≤ 2 * 10) ∧
    listHandler okStore none = listHandler okStore (some 10) :=
  list_max_results okStore 10 [sampleImage] [sampleVideo] rfl rfl
    (by decide) (by decide)

/-- Claim C5: if the image query fails, or the video query fails after the
image query succeeded, GET /files responds 500 with a body that is only an
error field — no files, totalFiles or totalSize — so there is no
partial-success response. -/
theorem list_query_failure (store : Store) (mrp : Option Nat) (msg : String) :
    (store.resources (imageQuery (mrp.getD 10)) = Except.error msg →
      listHandler store mrp = ((500, ListBody.err msg),
        [StoreCall.listResources (imageQuery (mrp.getD 10))])) ∧
    (∀ imgs, store.resources (imageQuery (mrp.getD 10)) = Except.ok imgs →
      store.resources (videoQuery (mrp.getD 10)) = Except.error msg →
      listHandler store mrp = ((500, ListBody.err msg),
        [StoreCall.listResources (imageQuery (mrp.getD 10)),
          StoreCall.listResources (videoQuery (mrp.getD 10))])) := by
  constructor
  · intro h
    simp [listHandler, h]
  · intro imgs h1 h2
    simp [listHandler, h1, h2]

theorem list_query_failure_witness :
    listHandler mixedStore none = ((500, ListBody.err "boom"),
      [StoreCall.listResources (imageQuery 10),
        StoreCall.listResources (videoQuery 10)]) :=
  (list_query_failure mixedStore none "boom").2 [sampleImage] rfl rfl

/-- Claim C6: POST /upload with no file part returns 400 with the
non-empty error message "No file uploaded" and issues no store call. -/
theorem upload_no_file (store : Store) (now : Nat) (randSuffix : String) :
    uploadHandler store none now randSuffix =
      ((400, UploadBody.err "No file uploaded"), []) ∧
    "No file uploaded" ≠ "" :=
  ⟨rfl, by decide⟩

/-- Claim C7: every Remote Media Store failure during an upload or a delete
yields a 500 response whose body carries the store's error message
verbatim: the upload handler puts it in the `error` field; the delete
handler puts it in the `details` field (its `error` field is the fixed
string "Failed to delete file from Cloudinary"), for both a failed lookup
and a failed destroy. -/
theorem store_error_passthrough (store : Store) (file : ReqFile) (now : Nat)
    (randSuffix msg id : String) :
    (store.upload (uploadDataURI file) (uploadOpts now randSuffix) =
        Except.error msg →
      (uploadHandler store (some file) now randSuffix).1 =
        (500, UploadBody.err msg)) ∧
    (store.resource id = Except.error msg →
      (deleteHandler store id).1 =
        (500, DeleteBody.err "Failed to delete file from Cloudinary" msg)) ∧
    (∀ info, store.resource id = Except.ok info →
      store.destroy id info.resource_type = Except.error msg →
      (deleteHandler store id).1 =
        (500, DeleteBody.err "Failed to delete file from Cloudinary" msg)) := by
  refine ⟨?_, ?_, ?_⟩
  · intro h
    simp [uploadHandler, h]
  · intro h
    simp [deleteHandler, h]
  · intro info h1 h2
    simp [deleteHandler, h1, h2]

theorem store_error_passthrough_witness :
    (uploadHandler failStore (some sampleFile) 1 "aa").1 =
      (500, UploadBody.err "boom") :=
  (store_error_passthrough failStore sampleFile 1 "aa" "boom" "x").1 rfl

/-- Claim C8, counterexample: the JS test `!origin` treats an empty-string
Origin header like an absent one, so a request whose Origin header is
present but empty — a value not in the allow-list — is allowed through to
the handlers rather than rejected. -/
theorem cors_empty_origin_counterexample :
    allowedOrigins.contains "" = false ∧
    corsOrigin (some "") = Except.ok true ∧
    reachesHandler (some "") = true := by
  exact ⟨by decide, rfl, rfl⟩

/-- Claim C8, amended: a request whose Origin header is present, non-empty
and not in the fixed allow-list never reaches a route handler, and a
request with no Origin header is always allowed through. -/
theorem cors_allowlist (o : String) (hne : o ≠ "")
    (hmem : allowedOrigins.contains o = false) :
    reachesHandler (some o) = false ∧ reachesHandler none = true := by
  have hmem2 : o ∉ allowedOrigins := by simpa using hmem
  refine ⟨?_, rfl⟩
  simp [reachesHandler, corsOrigin, hne, hmem2]

theorem cors_allowlist_witness :
    reachesHandler (some "https://evil.example") = false ∧
    reachesHandler none = true :=
  cors_allowlist "https://evil.example" (by decide) (by decide)

/-- Claim C9: the identifier returned in the `public_id` field of a
successful upload, passed unmodified as the delete key, is the key of
every store call the delete handler issues — the lookup comes first and
both the lookup and any destroy are keyed by exactly that string. -/
theorem upload_delete_roundtrip (stU stD : Store) (file : ReqFile) (now : Nat)
    (randSuffix m u p : String)
    (_hupload : (uploadHandler stU (some file) now randSuffix).1 =
      (200, UploadBody.ok m u p)) :
    (deleteHandler stD p).2.head? = some (StoreCall.resource p) ∧
    ∀ c ∈ (deleteHandler stD p).2, StoreCall.keyOf c = some p := by
  constructor
  · cases h1 : stD.resource p with
    | error msg => simp [deleteHandler, h1]
    | ok info =>
      cases h2 : stD.destroy p info.resource_type <;> simp [deleteHandler, h1, h2]
  · intro c hc
    cases h1 : stD.resource p with
    | error msg =>
      simp only [deleteHandler, h1, List.mem_singleton] at hc
      subst hc
      rfl
    | ok info =>
      cases h2 : stD.destroy p info.resource_type <;>
        · simp only [deleteHandler, h1, h2, List.mem_cons, List.mem_singleton,
            List.not_mem_nil, or_false] at hc
          rcases hc with hc | hc <;> (subst hc; rfl)

theorem upload_delete_roundtrip_witness :
    (deleteHandler okStore "1-aa").2.head? = some (StoreCall.resource "1-aa") ∧
    ∀ c ∈ (deleteHandler okStore "1-aa").2, StoreCall.keyOf c = some "1-aa" :=
  upload_delete_roundtrip okStore okStore sampleFile 1 "aa"
    "Upload successful" "https://res.example/u.jpg" "1-aa" (by decide)

/-- Claim C10: in every successful GET /files response the files array is
the image-query entries followed by the video-query entries, each block in
the order the store returned it. -/
theorem list_images_before_videos (store : Store) (mrp : Option Nat)
    (imgs vids : List StoreFile)
    (himg : store.resources (imageQuery (mrp.getD 10)) = Except.ok imgs)
    (hvid : store.resources (videoQuery (mrp.getD 10)) = Except.ok vids) :
    ∀ files tf ts, (listHandler store mrp).1.2 = ListBody.ok files tf ts →
      files = imgs.map projectFile ++ vids.map projectFile := by
  intro files tf ts h
  rw [listHandler_ok store mrp imgs vids himg hvid] at h
  simp only [ListBody.ok.injEq] at h
  obtain ⟨hf, -, -⟩ := h
  rw [← hf, List.map_append]

theorem list_images_before_videos_witness :
    [projectFile sampleImage, projectFile sampleVideo] =
      [sampleImage].map projectFile ++ [sampleVideo].map projectFile :=
  list_images_before_videos okStore none [sampleImage] [sampleVideo] rfl rfl
    [projectFile sampleImage, projectFile sampleVideo] 2 350 (by decide)

end MediaUploader
